import Mathlib

/-!
Shallow embedding of the vulkano buffer / command-validation / future-chain
core: `UnsafeBuffer::new` and its usage queries (src/vulkano/src/buffer/sys.rs),
`check_index_buffer` (src/vulkano/src/command_buffer/validity/index_buffer.rs),
`check_push_constants_validity`
(src/vulkano/src/command_buffer/validity/push_constants.rs), and the
future-chain composition driven by the fullscreen example.

Calls into the native Vulkan driver (`vkCreateBuffer`,
`vkGetBufferMemoryRequirements`) are modelled as an oracle (`Driver`) giving
the driver's answers, together with explicit state passing (`DriverState`)
recording which native handles have been created.  A Rust `assert!` /
`debug_assert!` failure or `panic!` is the `Outcome.panic` constructor: the
function never returns a value on that path.
-/

namespace Vulkano

/-- Outcome of a Rust function that may panic (a fatal `assert!` failure),
return an error, or return a value. -/
inductive Outcome (ε : Type) (α : Type) where
  | panic (msg : String)
  | err (e : ε)
  | ok (a : α)
deriving DecidableEq, Repr

def Outcome.isPanic {ε α : Type} : Outcome ε α → Bool
  | .panic _ => true
  | _ => false

def Outcome.isOk {ε α : Type} : Outcome ε α → Bool
  | .ok _ => true
  | _ => false

/-- The usage flags of `vulkano::buffer::BufferUsage`: one `bool` per buffer
usage kind, exactly the fields `UnsafeBuffer::new` reads
(`usage.uniform_texel_buffer`, `usage.storage_buffer`, ...). -/
structure BufferUsage where
  transfer_source : Bool
  transfer_destination : Bool
  uniform_texel_buffer : Bool
  storage_texel_buffer : Bool
  uniform_buffer : Bool
  storage_buffer : Bool
  index_buffer : Bool
  vertex_buffer : Bool
  indirect_buffer : Bool
deriving DecidableEq, Repr

/-- Modelled from the spec: the native `vk::BUFFER_USAGE_*_BIT` constants (the
generated Vulkan bindings are not under src/); the spec describes the stored
usage as a "usage-flag bitset", one distinct bit per usage kind. -/
def BUFFER_USAGE_TRANSFER_SRC_BIT : Nat := 1

def BUFFER_USAGE_TRANSFER_DST_BIT : Nat := 2

def BUFFER_USAGE_UNIFORM_TEXEL_BUFFER_BIT : Nat := 4

def BUFFER_USAGE_STORAGE_TEXEL_BUFFER_BIT : Nat := 8

def BUFFER_USAGE_UNIFORM_BUFFER_BIT : Nat := 16

def BUFFER_USAGE_STORAGE_BUFFER_BIT : Nat := 32

def BUFFER_USAGE_INDEX_BUFFER_BIT : Nat := 64

def BUFFER_USAGE_VERTEX_BUFFER_BIT : Nat := 128

def BUFFER_USAGE_INDIRECT_BUFFER_BIT : Nat := 256

/-- Modelled from the spec: `vulkano::buffer::usage::usage_to_bits` (its file
is not under src/); per the spec the stored value is a bitset with the bit of
each usage kind set exactly when that flag of `BufferUsage` is set. -/
def usage_to_bits (u : BufferUsage) : Nat :=
  (if u.transfer_source then BUFFER_USAGE_TRANSFER_SRC_BIT else 0) |||
  (if u.transfer_destination then BUFFER_USAGE_TRANSFER_DST_BIT else 0) |||
  (if u.uniform_texel_buffer then BUFFER_USAGE_UNIFORM_TEXEL_BUFFER_BIT else 0) |||
  (if u.storage_texel_buffer then BUFFER_USAGE_STORAGE_TEXEL_BUFFER_BIT else 0) |||
  (if u.uniform_buffer then BUFFER_USAGE_UNIFORM_BUFFER_BIT else 0) |||
  (if u.storage_buffer then BUFFER_USAGE_STORAGE_BUFFER_BIT else 0) |||
  (if u.index_buffer then BUFFER_USAGE_INDEX_BUFFER_BIT else 0) |||
  (if u.vertex_buffer then BUFFER_USAGE_VERTEX_BUFFER_BIT else 0) |||
  (if u.indirect_buffer then BUFFER_USAGE_INDIRECT_BUFFER_BIT else 0)

/-- `vulkano::buffer::sys::SparseLevel`. -/
structure SparseLevel where
  sparse : Bool
  sparse_residency : Bool
  sparse_aliased : Bool
deriving DecidableEq, Repr

def SparseLevel.none : SparseLevel :=
  { sparse := false, sparse_residency := false, sparse_aliased := false }

/-- The device features `UnsafeBuffer::new` reads from
`device.enabled_features()`. -/
structure Features where
  sparse_binding : Bool
  sparse_residency_buffer : Bool
  sparse_residency_aliased : Bool
deriving DecidableEq, Repr

/-- The physical-device limits `UnsafeBuffer::new` reads from
`device.physical_device().limits()`. -/
structure Limits where
  min_texel_buffer_offset_alignment : Nat
  min_storage_buffer_offset_alignment : Nat
  min_uniform_buffer_offset_alignment : Nat
deriving DecidableEq, Repr

/-- A logical device: it exclusively owns one native connection handle
(`internal_object`), so distinct devices have distinct handles. -/
structure Device where
  internal_object : Nat
  enabled_features : Features
  limits : Limits
deriving DecidableEq, Repr

/-- `vulkano::OomError`. -/
inductive OomError where
  | OutOfHostMemory
  | OutOfDeviceMemory
deriving DecidableEq, Repr

/-- `vulkano::buffer::sys::BufferCreationError`. -/
inductive BufferCreationError where
  | OomError (e : OomError)
  | SparseBindingFeatureNotEnabled
  | SparseResidencyBufferFeatureNotEnabled
  | SparseResidencyAliasedFeatureNotEnabled
deriving DecidableEq, Repr

/-- The sparse-feature error variants of `BufferCreationError`. -/
def BufferCreationError.isSparseFeatureError : BufferCreationError → Bool
  | .SparseBindingFeatureNotEnabled => true
  | .SparseResidencyBufferFeatureNotEnabled => true
  | .SparseResidencyAliasedFeatureNotEnabled => true
  | .OomError _ => false

/-- `vulkano::sync::Sharing`, with the queue-family ids collected. -/
inductive Sharing where
  | exclusive
  | concurrent (ids : List Nat)
deriving DecidableEq, Repr

/-- The native `vk::MemoryRequirements` the driver writes in
`vkGetBufferMemoryRequirements`. -/
structure VkMemoryRequirements where
  size : Nat
  alignment : Nat
  memoryTypeBits : Nat
deriving DecidableEq, Repr

/-- `vulkano::memory::MemoryRequirements` (what `output.into()` yields). -/
structure MemoryRequirements where
  size : Nat
  alignment : Nat
  memory_type_bits : Nat
deriving DecidableEq, Repr

/-- The driver's answer to `vkCreateBuffer`: either a fresh native handle or
one of the out-of-memory result codes `check_errors` surfaces as `Error`. -/
inductive CreateResult where
  | success (handle : Nat)
  | outOfHostMemory
  | outOfDeviceMemory
deriving DecidableEq, Repr

/-- Oracle for the native calls `UnsafeBuffer::new` makes. -/
structure Driver where
  createResult : CreateResult
  memReqs : VkMemoryRequirements
deriving DecidableEq, Repr

/-- Driver-side state: the native buffer handles created so far. -/
structure DriverState where
  buffersCreated : List Nat
deriving DecidableEq, Repr

/-- `vulkano::buffer::sys::UnsafeBuffer`: native handle, owning device, size
in bytes, stored usage bitset. -/
structure UnsafeBuffer where
  buffer : Nat
  device : Device
  size : Nat
  usage : Nat
deriving DecidableEq, Repr

def msg_sparse_residency : String :=
  "Can't enable sparse residency without enabling sparse binding as well"

def msg_sparse_aliased : String :=
  "Can't enable sparse aliasing without enabling sparse binding as well"

def msg_debug_size : String :=
  "debug assertion failed: output.size >= size as u64"

def msg_debug_memory_type_bits : String :=
  "debug assertion failed: output.memoryTypeBits != 0"

/-- The local helper of `UnsafeBuffer::new`:
`fn align(val, al) = al * (1 + (val - 1) / al)`. -/
def align (val al : Nat) : Nat := al * (1 + (val - 1) / al)

/-- `UnsafeBuffer::new(device, size, usage, sharing, sparse)`.  The two
`assert!` calls and the (debug-build) `debug_assert!` calls are panics; the
native calls consult `driver` and thread `st`.  On the path that reaches
`vkCreateBuffer` successfully, the fresh handle is appended to the driver
state. -/
def UnsafeBuffer.new (device : Device) (size : Nat) (usage : BufferUsage)
    (sharing : Sharing) (sparse : SparseLevel) (driver : Driver)
    (st : DriverState) :
    Outcome BufferCreationError (UnsafeBuffer × MemoryRequirements) × DriverState :=
  let usage_bits := usage_to_bits usage
  -- Checking sparse features.
  if !(sparse.sparse || !sparse.sparse_residency) then
    (.panic msg_sparse_residency, st)
  else if !(sparse.sparse || !sparse.sparse_aliased) then
    (.panic msg_sparse_aliased, st)
  else if sparse.sparse && !device.enabled_features.sparse_binding then
    (.err .SparseBindingFeatureNotEnabled, st)
  else if sparse.sparse_residency && !device.enabled_features.sparse_residency_buffer then
    (.err .SparseResidencyBufferFeatureNotEnabled, st)
  else if sparse.sparse_aliased && !device.enabled_features.sparse_residency_aliased then
    (.err .SparseResidencyAliasedFeatureNotEnabled, st)
  else
    match driver.createResult with
    | .outOfHostMemory => (.err (.OomError .OutOfHostMemory), st)
    | .outOfDeviceMemory => (.err (.OomError .OutOfDeviceMemory), st)
    | .success handle =>
      let st2 : DriverState := { buffersCreated := st.buffersCreated ++ [handle] }
      let output := driver.memReqs
      if !(decide (size ≤ output.size)) then
        (.panic msg_debug_size, st2)
      else if output.memoryTypeBits == 0 then
        (.panic msg_debug_memory_type_bits, st2)
      else
        -- We have to manually enforce some additional requirements
        -- for some buffer types.
        let limits := device.limits
        let a0 := output.alignment
        let a1 := if usage.uniform_texel_buffer || usage.storage_texel_buffer then
            align a0 limits.min_texel_buffer_offset_alignment
          else a0
        let a2 := if usage.storage_buffer then
            align a1 limits.min_storage_buffer_offset_alignment
          else a1
        let a3 := if usage.uniform_buffer then
            align a2 limits.min_uniform_buffer_offset_alignment
          else a2
        let mem_reqs : MemoryRequirements :=
          { size := output.size, alignment := a3,
            memory_type_bits := output.memoryTypeBits }
        let obj : UnsafeBuffer :=
          { buffer := handle, device := device, size := size, usage := usage_bits }
        (.ok (obj, mem_reqs), st2)

def UnsafeBuffer.usage_transfer_src (b : UnsafeBuffer) : Bool :=
  (b.usage &&& BUFFER_USAGE_TRANSFER_SRC_BIT) != 0

def UnsafeBuffer.usage_transfer_dest (b : UnsafeBuffer) : Bool :=
  (b.usage &&& BUFFER_USAGE_TRANSFER_DST_BIT) != 0

def UnsafeBuffer.usage_uniform_texel_buffer (b : UnsafeBuffer) : Bool :=
  (b.usage &&& BUFFER_USAGE_UNIFORM_TEXEL_BUFFER_BIT) != 0

def UnsafeBuffer.usage_storage_texel_buffer (b : UnsafeBuffer) : Bool :=
  (b.usage &&& BUFFER_USAGE_STORAGE_TEXEL_BUFFER_BIT) != 0

def UnsafeBuffer.usage_uniform_buffer (b : UnsafeBuffer) : Bool :=
  (b.usage &&& BUFFER_USAGE_UNIFORM_BUFFER_BIT) != 0

def UnsafeBuffer.usage_storage_buffer (b : UnsafeBuffer) : Bool :=
  (b.usage &&& BUFFER_USAGE_STORAGE_BUFFER_BIT) != 0

def UnsafeBuffer.usage_index_buffer (b : UnsafeBuffer) : Bool :=
  (b.usage &&& BUFFER_USAGE_INDEX_BUFFER_BIT) != 0

def UnsafeBuffer.usage_vertex_buffer (b : UnsafeBuffer) : Bool :=
  (b.usage &&& BUFFER_USAGE_VERTEX_BUFFER_BIT) != 0

def UnsafeBuffer.usage_indirect_buffer (b : UnsafeBuffer) : Bool :=
  (b.usage &&& BUFFER_USAGE_INDIRECT_BUFFER_BIT) != 0

/-- The spec's words for the alignment on success (for comparison with what
`UnsafeBuffer.new` computes): "the maximum of the driver-reported alignment
and each device-limit minimum alignment implied by a usage flag actually set
... the maximum of all applicable minimums, not their sum". -/
def spec_claimed_alignment (driverAlignment : Nat) (usage : BufferUsage)
    (limits : Limits) : Nat :=
  max (max (max driverAlignment
    (if usage.uniform_texel_buffer || usage.storage_texel_buffer then
        limits.min_texel_buffer_offset_alignment else 0))
    (if usage.storage_buffer then limits.min_storage_buffer_offset_alignment else 0))
    (if usage.uniform_buffer then limits.min_uniform_buffer_offset_alignment else 0)

/-! ## Index-buffer validation -/

/-- A buffer seen through `BufferAccess` and `TypedBufferAccess`:
`buffer.inner().buffer` is the underlying `UnsafeBuffer`, `buffer.len()` the
element count of its typed content `[I]`. -/
structure TypedBuffer where
  inner : UnsafeBuffer
  len : Nat
deriving DecidableEq, Repr

/-- Information returned if `check_index_buffer` succeeds. -/
structure CheckIndexBuffer where
  num_indices : Nat
deriving DecidableEq, Repr

/-- `CheckIndexBufferError` (the `simple_error!` enum): three variants, of
which only `BufferMissingUsage` is ever produced by `check_index_buffer`. -/
inductive CheckIndexBufferError where
  | BufferMissingUsage
  | WrongAlignment
  | UnsupportIndexType
deriving DecidableEq, Repr

def msg_device_mismatch : String :=
  "assertion failed: buffer.inner().buffer.device().internal_object() == device.internal_object()"

/-- `check_index_buffer(device, buffer)`: panics (the `assert_eq!`) when the
buffer's owning device handle differs from the checking device's handle,
errors when the index-buffer usage flag is missing, and otherwise succeeds
with the buffer's element count. -/
def check_index_buffer (device : Device) (buffer : TypedBuffer) :
    Outcome CheckIndexBufferError CheckIndexBuffer :=
  if buffer.inner.device.internal_object != device.internal_object then
    .panic msg_device_mismatch
  else if !buffer.inner.usage_index_buffer then
    .err .BufferMissingUsage
  else
    .ok { num_indices := buffer.len }

/-! ## Push-constants validation -/

/-- A pipeline layout as `check_push_constants_validity` sees it: something
with the `PipelineLayoutPushConstantsCompatible` compatibility predicate
`is_compatible` over candidate push-constant values of type `Pc`. -/
structure PipelineLayout (Pc : Type) where
  is_compatible : Pc → Bool

/-- `CheckPushConstantsValidityError` (the `simple_error!` enum): a single
variant. -/
inductive CheckPushConstantsValidityError where
  | IncompatiblePushConstants
deriving DecidableEq, Repr

/-- `check_push_constants_validity(pipeline, push_constants)`. -/
def check_push_constants_validity {Pc : Type} (pipeline : PipelineLayout Pc)
    (push_constants : Pc) : Except CheckPushConstantsValidityError Unit :=
  if !pipeline.is_compatible push_constants then
    .error .IncompatiblePushConstants
  else
    .ok ()

/-! ## Future chain (spec-modelled)

The future implementation (`vulkano::sync::future`) is not under src/; only
its use in the fullscreen example is
(`previous_frame_end.join(acquire_future).then_execute(queue, cmd)...`).
Following the spec: per-node states `Pending -> (Flushed -> Signaled |
Flushed -> Errored)`; "join(a, b): produces a node complete only when both a
and b have reached Signaled; keeps both alive until then"; "then_execute ...
append[s] a unit of work that depends on the predecessor"; and the design
note to represent the chain as a tagged-variant tree walked by one
completion-polling routine. -/

/-- Modelled from the spec: the completion state of one unit of GPU work. -/
inductive NodeState where
  | pending
  | flushed
  | signaled
  | errored
deriving DecidableEq, Repr

/-- Modelled from the spec: the future chain as a tagged-variant tree.  A
`unit` leaf is one submitted unit of work with its driver-reported state;
`join` composes two futures; `thenExecute` appends a unit of work (with its
own state) after a predecessor. -/
inductive FutureNode where
  | now
  | unit (s : NodeState)
  | join (a b : FutureNode)
  | thenExecute (pred : FutureNode) (s : NodeState)
deriving DecidableEq, Repr

/-- Modelled from the spec: the single completion-polling routine.  A node's
represented work is complete when its own unit of work (if any) has reached
`Signaled` and every predecessor is complete; `join a b` is complete only
when both `a` and `b` are. -/
def FutureNode.isComplete : FutureNode → Bool
  | .now => true
  | .unit s => s == .signaled
  | .join a b => a.isComplete && b.isComplete
  | .thenExecute pred s => pred.isComplete && s == .signaled

/-- Modelled from the spec: the predecessors a composed node keeps alive — a
node retains references to its upstream nodes until its own completion is
confirmed ("keeps both alive until then"). -/
def FutureNode.keptAlive : FutureNode → List FutureNode
  | .now => []
  | .unit _ => []
  | .join a b => if (FutureNode.join a b).isComplete then [] else [a, b]
  | .thenExecute pred s =>
      if (FutureNode.thenExecute pred s).isComplete then [] else [pred]

/-! ## Helper lemmas about `align` -/

/-- A power of two, the shape Vulkan guarantees for driver-reported alignments
and the offset-alignment limits. -/
def Pow2 (n : Nat) : Prop := ∃ k, n = 2 ^ k

theorem Pow2.pos {n : Nat} (h : Pow2 n) : 0 < n := by
  obtain ⟨k, rfl⟩ := h
  positivity

/-- Rounding `val` up to a multiple of `al` is their maximum whenever `val`
does not exceed `al` or is a multiple of it. -/
theorem align_eq_max (val al : Nat) (hval : 0 < val) (hal : 0 < al)
    (h : val ≤ al ∨ al ∣ val) : align val al = max val al := by
  rcases h with h | ⟨k, rfl⟩
  · have hd : (val - 1) / al = 0 := Nat.div_eq_of_lt (by omega)
    simp only [align, hd]
    omega
  · have hk : 0 < k := by
      rcases Nat.eq_zero_or_pos k with rfl | hk
      · simp at hval
      · exact hk
    have hmul : al * k - 1 = al * (k - 1) + (al - 1) := by
      have hs : al * (k - 1) + al = al * k := by
        rw [← Nat.mul_succ]
        have hk1 : (k - 1).succ = k := by omega
        rw [hk1]
      omega
    have hd : (al * k - 1) / al = k - 1 := by
      rw [hmul, Nat.mul_add_div hal, Nat.div_eq_of_lt (by omega)]
      omega
    simp only [align, hd]
    have h1 : 1 + (k - 1) = k := by omega
    have hle : al ≤ al * k := Nat.le_mul_of_pos_right al hk
    rw [h1, Nat.max_eq_left hle]

/-- On powers of two, rounding up to a multiple coincides with the maximum. -/
theorem align_pow2_eq_max {a b : Nat} (ha : Pow2 a) (hb : Pow2 b) :
    align a b = max a b := by
  obtain ⟨i, hi⟩ := ha
  obtain ⟨j, hj⟩ := hb
  subst hi hj
  rcases le_total i j with h | h
  · exact align_eq_max _ _ (by positivity) (by positivity)
      (Or.inl (Nat.pow_le_pow_right (by norm_num) h))
  · exact align_eq_max _ _ (by positivity) (by positivity)
      (Or.inr (pow_dvd_pow 2 h))

theorem Pow2.max {a b : Nat} (ha : Pow2 a) (hb : Pow2 b) : Pow2 (max a b) := by
  rcases Nat.le_total a b with h | h
  · rwa [Nat.max_eq_right h]
  · rwa [Nat.max_eq_left h]

/-! ## Inversion of the success path of `UnsafeBuffer.new` -/

/-- The alignment `UnsafeBuffer::new` stores on success: the driver-reported
alignment rounded up, in order, per applicable usage-flag limit (lines
124-139 of sys.rs). -/
def adjusted_alignment (driverAlignment : Nat) (usage : BufferUsage)
    (limits : Limits) : Nat :=
  let a1 := if usage.uniform_texel_buffer || usage.storage_texel_buffer then
      align driverAlignment limits.min_texel_buffer_offset_alignment
    else driverAlignment
  let a2 := if usage.storage_buffer then
      align a1 limits.min_storage_buffer_offset_alignment
    else a1
  if usage.uniform_buffer then
    align a2 limits.min_uniform_buffer_offset_alignment
  else a2

set_option maxHeartbeats 1000000 in
/-- What a successful run of `UnsafeBuffer.new` implies: the sparse checks
passed, the driver created a handle, the debug assertions held, and the
returned object, requirements and driver state are exactly the ones built on
the success path. -/
theorem new_ok_inversion (device : Device) (size : Nat) (usage : BufferUsage)
    (sharing : Sharing) (sparse : SparseLevel) (driver : Driver)
    (st : DriverState) (obj : UnsafeBuffer) (reqs : MemoryRequirements)
    (st2 : DriverState)
    (h : UnsafeBuffer.new device size usage sharing sparse driver st =
      (.ok (obj, reqs), st2)) :
    ∃ handle, driver.createResult = .success handle ∧
      size ≤ driver.memReqs.size ∧
      driver.memReqs.memoryTypeBits ≠ 0 ∧
      obj = { buffer := handle, device := device, size := size,
              usage := usage_to_bits usage } ∧
      reqs = { size := driver.memReqs.size,
               alignment := adjusted_alignment driver.memReqs.alignment usage
                 device.limits,
               memory_type_bits := driver.memReqs.memoryTypeBits } ∧
      st2 = { buffersCreated := st.buffersCreated ++ [handle] } := by
  simp only [UnsafeBuffer.new] at h
  split at h
  · simp at h
  split at h
  · simp at h
  split at h
  · simp at h
  split at h
  · simp at h
  split at h
  · simp at h
  split at h
  case _ heq => simp at h
  case _ heq => simp at h
  case _ handle heq =>
    split at h
    case _ hsz => simp at h
    split at h
    case _ hmb => simp at h
    case _ hsz hmb =>
      refine ⟨handle, heq, ?_, ?_, ?_⟩
      · simpa using hsz
      · simpa using hmb
      · simp only [Prod.mk.injEq, Outcome.ok.injEq] at h
        obtain ⟨⟨hobj, hreqs⟩, hst⟩ := h
        refine ⟨hobj.symm, ?_, hst.symm⟩
        rw [← hreqs]
        simp [adjusted_alignment]

/-! ## Concrete fixtures (used by witnesses and counterexamples) -/

def featNone : Features :=
  { sparse_binding := false, sparse_residency_buffer := false,
    sparse_residency_aliased := false }

def limitsPow2 : Limits :=
  { min_texel_buffer_offset_alignment := 16,
    min_storage_buffer_offset_alignment := 16,
    min_uniform_buffer_offset_alignment := 256 }

def dev0 : Device :=
  { internal_object := 1, enabled_features := featNone, limits := limitsPow2 }

def dev1 : Device :=
  { internal_object := 2, enabled_features := featNone, limits := limitsPow2 }

def usageNone : BufferUsage :=
  { transfer_source := false, transfer_destination := false,
    uniform_texel_buffer := false, storage_texel_buffer := false,
    uniform_buffer := false, storage_buffer := false, index_buffer := false,
    vertex_buffer := false, indirect_buffer := false }

def usageStorage : BufferUsage := { usageNone with storage_buffer := true }

def usageUniform : BufferUsage := { usageNone with uniform_buffer := true }

def st0 : DriverState := { buffersCreated := [] }

def driver0 : Driver :=
  { createResult := .success 7,
    memReqs := { size := 128, alignment := 4, memoryTypeBits := 1 } }

def objW : UnsafeBuffer :=
  { buffer := 7, device := dev0, size := 128, usage := 0 }

def reqsW : MemoryRequirements :=
  { size := 128, alignment := 4, memory_type_bits := 1 }

def stW : DriverState := { buffersCreated := [7] }

def bufIndex : TypedBuffer :=
  { inner := { buffer := 7, device := dev0, size := 2000, usage := 64 },
    len := 500 }

def bufOther : TypedBuffer :=
  { inner := { buffer := 7, device := dev1, size := 2000, usage := 511 },
    len := 500 }

def pl0 : PipelineLayout Nat := { is_compatible := fun _ => true }

/-! ## Claim theorems -/

/-- C3: for every `SparseLevel` with `sparse = false` and `sparse_residency`
or `sparse_aliased` set, `UnsafeBuffer::new` hits a fatal `assert!` failure
(panic) and never returns a value, neither success nor error. -/
theorem new_panics_on_invalid_sparse_level (device : Device) (size : Nat)
    (usage : BufferUsage) (sharing : Sharing) (sparse : SparseLevel)
    (driver : Driver) (st : DriverState)
    (hs : sparse.sparse = false)
    (hreq : sparse.sparse_residency = true ∨ sparse.sparse_aliased = true) :
    (UnsafeBuffer.new device size usage sharing sparse driver st).fst.isPanic
      = true := by
  rcases hreq with hr | ha
  · simp [UnsafeBuffer.new, hs, hr, Outcome.isPanic]
  · cases hsr : sparse.sparse_residency
    · simp [UnsafeBuffer.new, hs, ha, hsr, Outcome.isPanic]
    · simp [UnsafeBuffer.new, hs, hsr, Outcome.isPanic]

/-- Witness for C3 at the configuration of the repository's own
`panic_wrong_sparse_residency` test. -/
theorem new_panics_on_invalid_sparse_level_witness :
    (UnsafeBuffer.new dev0 128 usageNone .exclusive
      { sparse := false, sparse_residency := true, sparse_aliased := false }
      driver0 st0).fst.isPanic = true :=
  new_panics_on_invalid_sparse_level dev0 128 usageNone .exclusive
    { sparse := false, sparse_residency := true, sparse_aliased := false }
    driver0 st0 rfl (Or.inl rfl)

/-- C6: checking an index buffer against a device other than the buffer's
owning device trips the `assert_eq!` on the device handles (each device
exclusively owns its native handle, so distinct devices have distinct
handles): `check_index_buffer` panics and returns no result, whatever the
buffer's usage flags. -/
theorem check_index_buffer_panics_on_device_mismatch (device : Device)
    (buffer : TypedBuffer)
    (h : buffer.inner.device.internal_object ≠ device.internal_object) :
    check_index_buffer device buffer = .panic msg_device_mismatch := by
  simp [check_index_buffer, bne_iff_ne, h]

/-- Witness for C6: a buffer of `dev1` (handle 2) checked against `dev0`
(handle 1), with every usage flag set. -/
theorem check_index_buffer_panics_on_device_mismatch_witness :
    check_index_buffer dev0 bufOther = .panic msg_device_mismatch :=
  check_index_buffer_panics_on_device_mismatch dev0 bufOther (by decide)

/-- C2: for a buffer owned by the checking device, `check_index_buffer`
returns `BufferMissingUsage` iff the buffer lacks the index-buffer usage
flag; with the flag set it succeeds with `num_indices` equal to the buffer's
element count; and `BufferMissingUsage` is the only error it ever returns
(`WrongAlignment` and `UnsupportIndexType` exist but are never produced). -/
theorem check_index_buffer_spec (device : Device) (buffer : TypedBuffer)
    (hdev : buffer.inner.device.internal_object = device.internal_object) :
    (check_index_buffer device buffer = .err .BufferMissingUsage ↔
      buffer.inner.usage_index_buffer = false) ∧
    (buffer.inner.usage_index_buffer = true →
      check_index_buffer device buffer = .ok { num_indices := buffer.len }) ∧
    (∀ e, check_index_buffer device buffer = .err e →
      e = .BufferMissingUsage) := by
  have hbne : (buffer.inner.device.internal_object !=
      device.internal_object) = false := by
    simp [hdev]
  cases hu : buffer.inner.usage_index_buffer <;>
    simp [check_index_buffer, hbne, hu]

/-- Witness for C2 at the configuration of the repository's own
`num_indices` test: an index-usage buffer of 500 elements yields
`num_indices = 500`. -/
theorem check_index_buffer_spec_witness :
    check_index_buffer dev0 bufIndex = .ok { num_indices := 500 } :=
  (check_index_buffer_spec dev0 bufIndex rfl).2.1 (by decide)

/-- C5: `check_push_constants_validity` returns the single error
`IncompatiblePushConstants` iff the layout's `is_compatible` predicate
rejects the candidate, returns `Ok(())` otherwise, and admits no other
outcome: compatibility is all-or-nothing. -/
theorem check_push_constants_validity_spec {Pc : Type}
    (pipeline : PipelineLayout Pc) (pc : Pc) :
    (check_push_constants_validity pipeline pc =
      .error .IncompatiblePushConstants ↔
      pipeline.is_compatible pc = false) ∧
    (pipeline.is_compatible pc = true →
      check_push_constants_validity pipeline pc = .ok ()) ∧
    (∀ e, check_push_constants_validity pipeline pc = .error e →
      e = .IncompatiblePushConstants) := by
  cases hc : pipeline.is_compatible pc <;>
    simp [check_push_constants_validity, hc]

/-- Witness for C5 with a layout whose compatibility predicate accepts. -/
theorem check_push_constants_validity_spec_witness :
    check_push_constants_validity pl0 0 = .ok () :=
  (check_push_constants_validity_spec pl0 0).2.1 rfl

/-- C7: whenever `UnsafeBuffer::new` succeeds, the returned
`MemoryRequirements.size` is at least the requested size. -/
theorem new_memory_size_ge_requested (device : Device) (size : Nat)
    (usage : BufferUsage) (sharing : Sharing) (sparse : SparseLevel)
    (driver : Driver) (st : DriverState) (obj : UnsafeBuffer)
    (reqs : MemoryRequirements) (st2 : DriverState)
    (h : UnsafeBuffer.new device size usage sharing sparse driver st =
      (.ok (obj, reqs), st2)) :
    size ≤ reqs.size := by
  obtain ⟨handle, _, hsz, _, _, hreqs, _⟩ :=
    new_ok_inversion device size usage sharing sparse driver st obj reqs st2 h
  subst hreqs
  exact hsz

/-- Witness for C7 at the configuration of the repository's own `create`
test: a 128-byte request whose driver-reported size is 128. -/
theorem new_memory_size_ge_requested_witness : (128 : Nat) ≤ reqsW.size :=
  new_memory_size_ge_requested dev0 128 usageNone .exclusive SparseLevel.none
    driver0 st0 objW reqsW stW (by decide)

/-- When the driver-reported alignment and the three offset-alignment limits
are powers of two (as Vulkan guarantees), the successive round-ups of
`UnsafeBuffer::new` compute exactly the spec's maximum of all applicable
minimums. -/
theorem adjusted_alignment_eq_spec_of_pow2 (d : Nat) (usage : BufferUsage)
    (limits : Limits) (hd : Pow2 d)
    (ht : Pow2 limits.min_texel_buffer_offset_alignment)
    (hs : Pow2 limits.min_storage_buffer_offset_alignment)
    (hu : Pow2 limits.min_uniform_buffer_offset_alignment) :
    adjusted_alignment d usage limits =
      spec_claimed_alignment d usage limits := by
  cases h1 : (usage.uniform_texel_buffer || usage.storage_texel_buffer) <;>
    cases h2 : usage.storage_buffer <;> cases h3 : usage.uniform_buffer
  · simp [adjusted_alignment, spec_claimed_alignment, h1, h2, h3]
  · simp only [adjusted_alignment, spec_claimed_alignment, h1, h2, h3]
    simp [align_pow2_eq_max hd hu]
  · simp only [adjusted_alignment, spec_claimed_alignment, h1, h2, h3]
    simp [align_pow2_eq_max hd hs]
  · simp only [adjusted_alignment, spec_claimed_alignment, h1, h2, h3]
    simp [align_pow2_eq_max hd hs, align_pow2_eq_max (Pow2.max hd hs) hu]
  · simp only [adjusted_alignment, spec_claimed_alignment, h1, h2, h3]
    simp [align_pow2_eq_max hd ht]
  · simp only [adjusted_alignment, spec_claimed_alignment, h1, h2, h3]
    simp [align_pow2_eq_max hd ht, align_pow2_eq_max (Pow2.max hd ht) hu]
  · simp only [adjusted_alignment, spec_claimed_alignment, h1, h2, h3]
    simp [align_pow2_eq_max hd ht, align_pow2_eq_max (Pow2.max hd ht) hs]
  · simp only [adjusted_alignment, spec_claimed_alignment, h1, h2, h3]
    simp [align_pow2_eq_max hd ht, align_pow2_eq_max (Pow2.max hd ht) hs,
      align_pow2_eq_max (Pow2.max (Pow2.max hd ht) hs) hu]

/-- C1 (amended): on success the returned alignment is the driver-reported
alignment successively rounded up to a multiple of each device-limit minimum
implied by a usage flag actually set; when the driver-reported alignment and
the device limits are powers of two (as Vulkan guarantees) this equals the
maximum of the driver-reported alignment and all applicable minimums, not
their sum. -/
theorem new_alignment_eq_max_of_pow2 (device : Device) (size : Nat)
    (usage : BufferUsage) (sharing : Sharing) (sparse : SparseLevel)
    (driver : Driver) (st : DriverState) (obj : UnsafeBuffer)
    (reqs : MemoryRequirements) (st2 : DriverState)
    (h : UnsafeBuffer.new device size usage sharing sparse driver st =
      (.ok (obj, reqs), st2))
    (hd : Pow2 driver.memReqs.alignment)
    (ht : Pow2 device.limits.min_texel_buffer_offset_alignment)
    (hs : Pow2 device.limits.min_storage_buffer_offset_alignment)
    (hu : Pow2 device.limits.min_uniform_buffer_offset_alignment) :
    reqs.alignment =
      spec_claimed_alignment driver.memReqs.alignment usage device.limits := by
  obtain ⟨handle, _, _, _, _, hreqs, _⟩ :=
    new_ok_inversion device size usage sharing sparse driver st obj reqs st2 h
  subst hreqs
  exact adjusted_alignment_eq_spec_of_pow2 _ _ _ hd ht hs hu

/-- Witness for the amended C1: uniform-buffer usage with driver alignment 4
and `min_uniform_buffer_offset_alignment = 256` yields alignment 256, the
maximum of the applicable minimums. -/
theorem new_alignment_eq_max_of_pow2_witness :
    ({ size := 128, alignment := 256, memory_type_bits := 1 } :
        MemoryRequirements).alignment =
      spec_claimed_alignment driver0.memReqs.alignment usageUniform
        dev0.limits :=
  new_alignment_eq_max_of_pow2 dev0 128 usageUniform .exclusive
    SparseLevel.none driver0 st0
    { buffer := 7, device := dev0, size := 128, usage := 16 }
    { size := 128, alignment := 256, memory_type_bits := 1 } stW (by decide)
    ⟨2, by decide⟩ ⟨4, by decide⟩ ⟨4, by decide⟩ ⟨8, by decide⟩

def limitsOdd : Limits :=
  { min_texel_buffer_offset_alignment := 1,
    min_storage_buffer_offset_alignment := 2,
    min_uniform_buffer_offset_alignment := 1 }

def devOdd : Device :=
  { internal_object := 3, enabled_features := featNone, limits := limitsOdd }

def driverOdd : Driver :=
  { createResult := .success 9,
    memReqs := { size := 64, alignment := 3, memoryTypeBits := 1 } }

/-- C1 counterexample: a successful creation with storage-buffer usage,
driver-reported alignment 3 and `min_storage_buffer_offset_alignment = 2`
returns alignment 4 (3 rounded up to a multiple of 2), while the maximum of
the driver-reported alignment and the applicable minimums is 3: the returned
alignment is not that maximum. -/
theorem new_alignment_not_spec_max_counterexample :
    (UnsafeBuffer.new devOdd 64 usageStorage .exclusive SparseLevel.none
        driverOdd st0).fst =
      .ok ({ buffer := 9, device := devOdd, size := 64, usage := 32 },
        { size := 64, alignment := 4, memory_type_bits := 1 }) ∧
    spec_claimed_alignment driverOdd.memReqs.alignment usageStorage
      devOdd.limits = 3 ∧ (4 : Nat) ≠ 3 := by decide

def usageIndex : BufferUsage := { usageNone with index_buffer := true }

/-- Each usage query's bit test recovers exactly the flag that went into
`usage_to_bits`: the nine bits are distinct. -/
theorem usage_to_bits_bit_tests (u : BufferUsage) :
    ((usage_to_bits u &&& BUFFER_USAGE_TRANSFER_SRC_BIT) != 0)
        = u.transfer_source ∧
    ((usage_to_bits u &&& BUFFER_USAGE_TRANSFER_DST_BIT) != 0)
        = u.transfer_destination ∧
    ((usage_to_bits u &&& BUFFER_USAGE_UNIFORM_TEXEL_BUFFER_BIT) != 0)
        = u.uniform_texel_buffer ∧
    ((usage_to_bits u &&& BUFFER_USAGE_STORAGE_TEXEL_BUFFER_BIT) != 0)
        = u.storage_texel_buffer ∧
    ((usage_to_bits u &&& BUFFER_USAGE_UNIFORM_BUFFER_BIT) != 0)
        = u.uniform_buffer ∧
    ((usage_to_bits u &&& BUFFER_USAGE_STORAGE_BUFFER_BIT) != 0)
        = u.storage_buffer ∧
    ((usage_to_bits u &&& BUFFER_USAGE_INDEX_BUFFER_BIT) != 0)
        = u.index_buffer ∧
    ((usage_to_bits u &&& BUFFER_USAGE_VERTEX_BUFFER_BIT) != 0)
        = u.vertex_buffer ∧
    ((usage_to_bits u &&& BUFFER_USAGE_INDIRECT_BUFFER_BIT) != 0)
        = u.indirect_buffer := by
  obtain ⟨a, b, c, d, e, f, g, h, i⟩ := u
  revert a b c d e f g h i
  decide

/-- C8: a buffer built by a successful `UnsafeBuffer::new` with usage `U` and
size `s` stores `s` and the bitset `usage_to_bits U` in its immutable fields,
`size()` returns `s`, and each pure bit-test query `usage_X()` returns
exactly whether flag `X` was set in `U` (round-trip through
`usage_to_bits`). -/
theorem new_usage_queries_round_trip (device : Device) (size : Nat)
    (usage : BufferUsage) (sharing : Sharing) (sparse : SparseLevel)
    (driver : Driver) (st : DriverState) (obj : UnsafeBuffer)
    (reqs : MemoryRequirements) (st2 : DriverState)
    (h : UnsafeBuffer.new device size usage sharing sparse driver st =
      (.ok (obj, reqs), st2)) :
    obj.size = size ∧ obj.usage = usage_to_bits usage ∧
    obj.usage_transfer_src = usage.transfer_source ∧
    obj.usage_transfer_dest = usage.transfer_destination ∧
    obj.usage_uniform_texel_buffer = usage.uniform_texel_buffer ∧
    obj.usage_storage_texel_buffer = usage.storage_texel_buffer ∧
    obj.usage_uniform_buffer = usage.uniform_buffer ∧
    obj.usage_storage_buffer = usage.storage_buffer ∧
    obj.usage_index_buffer = usage.index_buffer ∧
    obj.usage_vertex_buffer = usage.vertex_buffer ∧
    obj.usage_indirect_buffer = usage.indirect_buffer := by
  obtain ⟨handle, _, _, _, hobj, _, _⟩ :=
    new_ok_inversion device size usage sharing sparse driver st obj reqs st2 h
  subst hobj
  obtain ⟨t1, t2, t3, t4, t5, t6, t7, t8, t9⟩ := usage_to_bits_bit_tests usage
  exact ⟨rfl, rfl, t1, t2, t3, t4, t5, t6, t7, t8, t9⟩

/-- Witness for C8: an index-usage buffer created with size 128; its stored
usage is bit 6 and `usage_index_buffer()` is `true` while
`usage_vertex_buffer()` is `false`. -/
theorem new_usage_queries_round_trip_witness :
    ({ buffer := 7, device := dev0, size := 128, usage := 64 } :
        UnsafeBuffer).size = 128 ∧
    ({ buffer := 7, device := dev0, size := 128, usage := 64 } :
        UnsafeBuffer).usage = usage_to_bits usageIndex ∧
    ({ buffer := 7, device := dev0, size := 128, usage := 64 } :
        UnsafeBuffer).usage_transfer_src = usageIndex.transfer_source ∧
    ({ buffer := 7, device := dev0, size := 128, usage := 64 } :
        UnsafeBuffer).usage_transfer_dest = usageIndex.transfer_destination ∧
    ({ buffer := 7, device := dev0, size := 128, usage := 64 } :
        UnsafeBuffer).usage_uniform_texel_buffer
        = usageIndex.uniform_texel_buffer ∧
    ({ buffer := 7, device := dev0, size := 128, usage := 64 } :
        UnsafeBuffer).usage_storage_texel_buffer
        = usageIndex.storage_texel_buffer ∧
    ({ buffer := 7, device := dev0, size := 128, usage := 64 } :
        UnsafeBuffer).usage_uniform_buffer = usageIndex.uniform_buffer ∧
    ({ buffer := 7, device := dev0, size := 128, usage := 64 } :
        UnsafeBuffer).usage_storage_buffer = usageIndex.storage_buffer ∧
    ({ buffer := 7, device := dev0, size := 128, usage := 64 } :
        UnsafeBuffer).usage_index_buffer = usageIndex.index_buffer ∧
    ({ buffer := 7, device := dev0, size := 128, usage := 64 } :
        UnsafeBuffer).usage_vertex_buffer = usageIndex.vertex_buffer ∧
    ({ buffer := 7, device := dev0, size := 128, usage := 64 } :
        UnsafeBuffer).usage_indirect_buffer = usageIndex.indirect_buffer :=
  new_usage_queries_round_trip dev0 128 usageIndex .exclusive
    SparseLevel.none driver0 st0
    { buffer := 7, device := dev0, size := 128, usage := 64 }
    reqsW stW (by decide)

/-- C9 (modelled from the spec, the future implementation not being under
src/): in a chain `join(A, B).then_execute(C)`, C's represented work is never
considered complete before both A and B are complete (have reached
`Signaled`); and while the join is incomplete, it keeps both predecessors
alive. -/
theorem join_then_execute_completion (A B : FutureNode) (s : NodeState) :
    ((FutureNode.thenExecute (FutureNode.join A B) s).isComplete = true →
      A.isComplete = true ∧ B.isComplete = true) ∧
    ((FutureNode.join A B).isComplete = false →
      A ∈ (FutureNode.join A B).keptAlive ∧
      B ∈ (FutureNode.join A B).keptAlive) := by
  constructor
  · intro h
    simp [FutureNode.isComplete] at h
    exact ⟨h.1.1, h.1.2⟩
  · intro h
    simp [FutureNode.keptAlive, h]

/-- Witness for C9: a complete chain has both predecessors signaled, and an
incomplete join retains its pending predecessor. -/
theorem join_then_execute_completion_witness :
    ((FutureNode.unit .signaled).isComplete = true ∧
      FutureNode.now.isComplete = true) ∧
    FutureNode.unit .pending ∈
      (FutureNode.join (FutureNode.unit .pending) FutureNode.now).keptAlive :=
  ⟨(join_then_execute_completion (FutureNode.unit .signaled) FutureNode.now
      .signaled).1 (by decide),
   ((join_then_execute_completion (FutureNode.unit .pending) FutureNode.now
      .signaled).2 (by decide)).1⟩

set_option maxHeartbeats 2000000 in
/-- C4 (amended): the sparse requirements are checked in order (binding,
residency, aliasing) and `UnsafeBuffer::new` returns the feature-not-enabled
error of the first sub-feature that is requested but not enabled; each
sparse-feature error variant is therefore returned only if its own
sub-feature is requested and not enabled, a sparse-feature error is returned
iff some requested sub-feature is not enabled, and for `sparse = false` no
sparse-feature error is ever returned. -/
theorem new_sparse_feature_error_spec (device : Device) (size : Nat)
    (usage : BufferUsage) (sharing : Sharing) (sparse : SparseLevel)
    (driver : Driver) (st : DriverState)
    (hr : sparse.sparse_residency = true → sparse.sparse = true)
    (ha : sparse.sparse_aliased = true → sparse.sparse = true) :
    ((UnsafeBuffer.new device size usage sharing sparse driver st).fst =
        .err .SparseBindingFeatureNotEnabled ↔
      sparse.sparse = true ∧
      device.enabled_features.sparse_binding = false) ∧
    ((UnsafeBuffer.new device size usage sharing sparse driver st).fst =
        .err .SparseResidencyBufferFeatureNotEnabled ↔
      sparse.sparse = true ∧ device.enabled_features.sparse_binding = true ∧
      sparse.sparse_residency = true ∧
      device.enabled_features.sparse_residency_buffer = false) ∧
    ((UnsafeBuffer.new device size usage sharing sparse driver st).fst =
        .err .SparseResidencyAliasedFeatureNotEnabled ↔
      sparse.sparse = true ∧ device.enabled_features.sparse_binding = true ∧
      (sparse.sparse_residency = true →
        device.enabled_features.sparse_residency_buffer = true) ∧
      sparse.sparse_aliased = true ∧
      device.enabled_features.sparse_residency_aliased = false) ∧
    ((∃ e, (UnsafeBuffer.new device size usage sharing sparse driver st).fst
        = .err e ∧ e.isSparseFeatureError = true) ↔
      ((sparse.sparse = true ∧
          device.enabled_features.sparse_binding = false) ∨
       (sparse.sparse_residency = true ∧
          device.enabled_features.sparse_residency_buffer = false) ∨
       (sparse.sparse_aliased = true ∧
          device.enabled_features.sparse_residency_aliased = false))) ∧
    (sparse.sparse = false →
      ∀ e, (UnsafeBuffer.new device size usage sharing sparse driver st).fst
          = .err e → e.isSparseFeatureError = false) := by
  rcases driver with ⟨cr, mr⟩
  cases hsp : sparse.sparse <;> cases hsr : sparse.sparse_residency <;>
    cases hsa : sparse.sparse_aliased <;>
    cases hf1 : device.enabled_features.sparse_binding <;>
    cases hf2 : device.enabled_features.sparse_residency_buffer <;>
    cases hf3 : device.enabled_features.sparse_residency_aliased <;>
    cases cr <;>
    simp_all [UnsafeBuffer.new, BufferCreationError.isSparseFeatureError] <;>
    split_ifs <;>
    simp_all

def sparseRes : SparseLevel :=
  { sparse := true, sparse_residency := true, sparse_aliased := false }

/-- C4 counterexample: with sparse binding and residency both requested and
neither feature enabled, sparse residency is requested without the
`sparse_residency_buffer` feature, yet the returned error is
`SparseBindingFeatureNotEnabled`, not
`SparseResidencyBufferFeatureNotEnabled`: the per-variant mapping of the
claim does not hold when an earlier check fires first. -/
theorem new_sparse_feature_error_counterexample :
    sparseRes.sparse_residency = true ∧
    dev0.enabled_features.sparse_residency_buffer = false ∧
    (UnsafeBuffer.new dev0 128 usageNone .exclusive sparseRes driver0
        st0).fst = .err .SparseBindingFeatureNotEnabled ∧
    (UnsafeBuffer.new dev0 128 usageNone .exclusive sparseRes driver0
        st0).fst ≠ .err .SparseResidencyBufferFeatureNotEnabled := by
  decide

/-- Witness for the amended C4: sparse binding requested on a device without
the feature yields `SparseBindingFeatureNotEnabled`. -/
theorem new_sparse_feature_error_spec_witness :
    (UnsafeBuffer.new dev0 128 usageNone .exclusive sparseRes driver0
        st0).fst = .err .SparseBindingFeatureNotEnabled :=
  (new_sparse_feature_error_spec dev0 128 usageNone .exclusive sparseRes
    driver0 st0 (fun _ => rfl) (fun _ => rfl)).1.mpr ⟨rfl, rfl⟩

set_option maxHeartbeats 2000000 in
/-- C10: all sparse-configuration checks of `UnsafeBuffer::new` (the two
fatal assertions and the three feature checks) run before `vkCreateBuffer`
is invoked: on a panic from an invalid sparse configuration, and on every
sparse-feature error return, the driver state is unchanged — no native
buffer handle has been created. -/
theorem new_sparse_failures_preserve_driver_state (device : Device)
    (size : Nat) (usage : BufferUsage) (sharing : Sharing)
    (sparse : SparseLevel) (driver : Driver) (st : DriverState)
    (h : (sparse.sparse = false ∧
          (sparse.sparse_residency = true ∨ sparse.sparse_aliased = true)) ∨
         ∃ e, (UnsafeBuffer.new device size usage sharing sparse driver
            st).fst = .err e ∧ e.isSparseFeatureError = true) :
    (UnsafeBuffer.new device size usage sharing sparse driver st).snd
      = st := by
  rcases driver with ⟨cr, mr⟩
  cases hsp : sparse.sparse <;> cases hsr : sparse.sparse_residency <;>
    cases hsa : sparse.sparse_aliased <;>
    cases hf1 : device.enabled_features.sparse_binding <;>
    cases hf2 : device.enabled_features.sparse_residency_buffer <;>
    cases hf3 : device.enabled_features.sparse_residency_aliased <;>
    cases cr <;>
    simp_all [UnsafeBuffer.new, BufferCreationError.isSparseFeatureError] <;>
    split_ifs at h <;>
    simp_all

/-- Witness for C10: the invalid configuration (`sparse = false`,
`sparse_residency = true`) leaves the driver state untouched. -/
theorem new_sparse_failures_preserve_driver_state_witness :
    (UnsafeBuffer.new dev0 128 usageNone .exclusive
      { sparse := false, sparse_residency := true, sparse_aliased := false }
      driver0 st0).snd = st0 :=
  new_sparse_failures_preserve_driver_state dev0 128 usageNone .exclusive
    { sparse := false, sparse_residency := true, sparse_aliased := false }
    driver0 st0 (Or.inl ⟨rfl, Or.inl rfl⟩)

end Vulkano
